import Mathlib

/-!
Shallow embedding of the LTTng-UST namespace context providers
(`lttng-context-pid-ns.c`, `lttng-context-user-ns.c` (user, mnt, cgroup),
`lttng-context-net-ns.c`, `lttng-context-ipc-ns.c`).

Each provider keeps a cached `unsigned int` namespace identity (0 means
unresolved), resolves it lazily via `stat` on a proc path, serializes it as an
aligned 4-byte native-order integer, and registers a field descriptor in the
tracer context registry. Syscall outcomes (`stat`, `snprintf`) are abstracted
into an environment record; the cache is passed explicitly as state.
-/

/-- Modulus of the C type `unsigned int` (32-bit). -/
def U32_MOD : Nat := 2 ^ 32

/-- The six namespace kinds provided by the sources. -/
inductive NsKind
  | pid
  | user
  | mnt
  | cgroup
  | net
  | ipc
deriving DecidableEq, Repr

/-- The registry field name each provider registers ("pid_ns", ...). -/
def NsKind.fieldName : NsKind → String
  | .pid => "pid_ns"
  | .user => "user_ns"
  | .mnt => "mnt_ns"
  | .cgroup => "cgroup_ns"
  | .net => "net_ns"
  | .ipc => "ipc_ns"

/-- Outcome of the OS lookups a single resolution call may perform.
`stat_primary` is the result of `stat` on the kind's primary proc path
(`some ino` on success, with `ino` the file's `st_ino`); `snprintf_ok` is
whether fallback path construction succeeds; `stat_fallback` is the result of
`stat` on the constructed `/proc/self/task/<tid>/ns/...` path. -/
structure OsEnv where
  stat_primary : Option Nat
  snprintf_ok : Bool
  stat_fallback : Option Nat
deriving DecidableEq, Repr

/-- Result of one call to a `get_*_ns` resolver: the `unsigned int` returned,
the cache cell's value after the call, and the number of `stat` syscalls
performed during the call. -/
structure ResolveResult where
  value : Nat
  cache : Nat
  syscalls : Nat
deriving DecidableEq, Repr

/-- Embedding of `get_pid_ns` (lttng-context-pid-ns.c): on a cache miss, one
`stat("/proc/self/ns/pid")`; on success the (64-bit) inode is assigned to the
32-bit `cached_pid_ns` (truncation mod 2^32); no fallback path. Returns the
cache cell. -/
def get_pid_ns (env : OsEnv) (cached_pid_ns : Nat) : ResolveResult :=
  let (cached, sys) :=
    if cached_pid_ns = 0 then
      match env.stat_primary with
      | some ino => (ino % U32_MOD, 1)
      | none => (cached_pid_ns, 1)
    else (cached_pid_ns, 0)
  ⟨cached, cached, sys⟩

/-- Embedding of `get_user_ns` (lttng-context-user-ns.c): on a cache miss,
`stat("/proc/thread-self/ns/user")`; if that fails, build
`/proc/self/task/<tid>/ns/user` with `snprintf` (aborting to `end` on
formatting failure) and `stat` it; a successful `stat` assigns `st_ino` to the
32-bit thread-local cache. Returns the cache cell. -/
def get_user_ns (env : OsEnv) (cached_user_ns : Nat) : ResolveResult :=
  let (cached, sys) :=
    if cached_user_ns = 0 then
      match env.stat_primary with
      | some ino => (ino % U32_MOD, 1)
      | none =>
        if env.snprintf_ok then
          match env.stat_fallback with
          | some ino => (ino % U32_MOD, 2)
          | none => (cached_user_ns, 2)
        else (cached_user_ns, 1)
    else (cached_user_ns, 0)
  ⟨cached, cached, sys⟩

/-- Embedding of `get_mnt_ns` (lttng-context-user-ns.c, mnt section): same
shape as `get_user_ns` over the "mnt" proc entry. -/
def get_mnt_ns (env : OsEnv) (cached_mnt_ns : Nat) : ResolveResult :=
  let (cached, sys) :=
    if cached_mnt_ns = 0 then
      match env.stat_primary with
      | some ino => (ino % U32_MOD, 1)
      | none =>
        if env.snprintf_ok then
          match env.stat_fallback with
          | some ino => (ino % U32_MOD, 2)
          | none => (cached_mnt_ns, 2)
        else (cached_mnt_ns, 1)
    else (cached_mnt_ns, 0)
  ⟨cached, cached, sys⟩

/-- Embedding of `get_cgroup_ns` (lttng-context-user-ns.c, cgroup section):
same shape as `get_user_ns` over the "cgroup" proc entry. -/
def get_cgroup_ns (env : OsEnv) (cached_cgroup_ns : Nat) : ResolveResult :=
  let (cached, sys) :=
    if cached_cgroup_ns = 0 then
      match env.stat_primary with
      | some ino => (ino % U32_MOD, 1)
      | none =>
        if env.snprintf_ok then
          match env.stat_fallback with
          | some ino => (ino % U32_MOD, 2)
          | none => (cached_cgroup_ns, 2)
        else (cached_cgroup_ns, 1)
    else (cached_cgroup_ns, 0)
  ⟨cached, cached, sys⟩

/-- Embedding of `get_net_ns` (lttng-context-net-ns.c): same shape as
`get_user_ns` over the "net" proc entry. -/
def get_net_ns (env : OsEnv) (cached_net_ns : Nat) : ResolveResult :=
  let (cached, sys) :=
    if cached_net_ns = 0 then
      match env.stat_primary with
      | some ino => (ino % U32_MOD, 1)
      | none =>
        if env.snprintf_ok then
          match env.stat_fallback with
          | some ino => (ino % U32_MOD, 2)
          | none => (cached_net_ns, 2)
        else (cached_net_ns, 1)
    else (cached_net_ns, 0)
  ⟨cached, cached, sys⟩

/-- Embedding of `get_ipc_ns` (lttng-context-ipc-ns.c): same shape as
`get_user_ns` over the "ipc" proc entry. -/
def get_ipc_ns (env : OsEnv) (cached_ipc_ns : Nat) : ResolveResult :=
  let (cached, sys) :=
    if cached_ipc_ns = 0 then
      match env.stat_primary with
      | some ino => (ino % U32_MOD, 1)
      | none =>
        if env.snprintf_ok then
          match env.stat_fallback with
          | some ino => (ino % U32_MOD, 2)
          | none => (cached_ipc_ns, 2)
        else (cached_ipc_ns, 1)
    else (cached_ipc_ns, 0)
  ⟨cached, cached, sys⟩

/-- Per-kind dispatch to the resolver, mirroring which `get_*_ns` each
provider's callbacks call. -/
def ns_resolve : NsKind → OsEnv → Nat → ResolveResult
  | .pid => get_pid_ns
  | .user => get_user_ns
  | .mnt => get_mnt_ns
  | .cgroup => get_cgroup_ns
  | .net => get_net_ns
  | .ipc => get_ipc_ns

/-- Embedding of `lttng_context_pid_ns_reset`: `cached_pid_ns = 0`. -/
def lttng_context_pid_ns_reset (_cached_pid_ns : Nat) : Nat := 0

/-- Embedding of `lttng_context_user_ns_reset`: the thread-local cache is set
to 0. -/
def lttng_context_user_ns_reset (_cached_user_ns : Nat) : Nat := 0

/-- Embedding of `lttng_context_mnt_ns_reset`. -/
def lttng_context_mnt_ns_reset (_cached_mnt_ns : Nat) : Nat := 0

/-- Embedding of `lttng_context_cgroup_ns_reset`. -/
def lttng_context_cgroup_ns_reset (_cached_cgroup_ns : Nat) : Nat := 0

/-- Embedding of `lttng_context_net_ns_reset`. -/
def lttng_context_net_ns_reset (_cached_net_ns : Nat) : Nat := 0

/-- Embedding of `lttng_context_ipc_ns_reset`. -/
def lttng_context_ipc_ns_reset (_cached_ipc_ns : Nat) : Nat := 0

/-- Per-kind dispatch to the reset entry points. -/
def ns_reset : NsKind → Nat → Nat
  | .pid => lttng_context_pid_ns_reset
  | .user => lttng_context_user_ns_reset
  | .mnt => lttng_context_mnt_ns_reset
  | .cgroup => lttng_context_cgroup_ns_reset
  | .net => lttng_context_net_ns_reset
  | .ipc => lttng_context_ipc_ns_reset

/-- Embedding of `lttng_fixup_user_ns_tls`: an `asm volatile` read of the
thread-local cache, forcing TLS allocation; semantically the cache is
unchanged. -/
def lttng_fixup_user_ns_tls (cached_user_ns : Nat) : Nat := cached_user_ns

/-- Embedding of `lttng_fixup_mnt_ns_tls`. -/
def lttng_fixup_mnt_ns_tls (cached_mnt_ns : Nat) : Nat := cached_mnt_ns

/-- Embedding of `lttng_fixup_cgroup_ns_tls`. -/
def lttng_fixup_cgroup_ns_tls (cached_cgroup_ns : Nat) : Nat := cached_cgroup_ns

/-- Embedding of `lttng_fixup_net_ns_tls`. -/
def lttng_fixup_net_ns_tls (cached_net_ns : Nat) : Nat := cached_net_ns

/-- Embedding of `lttng_fixup_ipc_ns_tls`. -/
def lttng_fixup_ipc_ns_tls (cached_ipc_ns : Nat) : Nat := cached_ipc_ns

/-- The fixup entry point each provider exposes. The pid provider exposes
none: its cache is a plain process-global `unsigned int`, not thread-local
storage, and lttng-context-pid-ns.c defines no `lttng_fixup_pid_ns_tls`. -/
def ns_fixup : NsKind → Option (Nat → Nat)
  | .pid => none
  | .user => some lttng_fixup_user_ns_tls
  | .mnt => some lttng_fixup_mnt_ns_tls
  | .cgroup => some lttng_fixup_cgroup_ns_tls
  | .net => some lttng_fixup_net_ns_tls
  | .ipc => some lttng_fixup_ipc_ns_tls

/-- Byte size of the C type `unsigned int`. -/
def sizeof_uint : Nat := 4

/-- Natural alignment of `unsigned int` on the target platform
(`lttng_alignof(unsigned int)`), in bytes. -/
def lttng_alignof_uint : Nat := 4

/-- Modelled from the spec: `lib_ring_buffer_align` (ring-buffer header, not
under the provider sources) returns the padding needed to align `offset` to
`align` ("the padding needed to align current_offset to the field's
alignment"). -/
def lib_ring_buffer_align (offset align : Nat) : Nat :=
  (align - offset % align) % align

/-- The four bytes of an `unsigned int` value in native (little-endian) byte
order, as copied by `event_write(ctx, &v, sizeof(v))`. -/
def u32_le_bytes (v : Nat) : List Nat :=
  [v % 2 ^ 8, v / 2 ^ 8 % 2 ^ 8, v / 2 ^ 16 % 2 ^ 8, v / 2 ^ 24 % 2 ^ 8]

/-- The write sink (`struct lttng_ust_lib_ring_buffer_ctx`): the current write
offset (`buf_offset`) and the bytes appended so far. -/
structure RbCtx where
  buf_offset : Nat
  written : List Nat
deriving DecidableEq, Repr

/-- Modelled from the spec: `lib_ring_buffer_align_ctx` advances the sink's
write cursor to the requested alignment, consuming padding bytes. -/
def lib_ring_buffer_align_ctx (ctx : RbCtx) (align : Nat) : RbCtx :=
  ⟨ctx.buf_offset + lib_ring_buffer_align ctx.buf_offset align,
   ctx.written ++ List.replicate (lib_ring_buffer_align ctx.buf_offset align) 0⟩

/-- Modelled from the spec: `chan->ops->event_write(ctx, &v, 4)` is the
bounded append primitive of the external sink, appending the given bytes. -/
def event_write (ctx : RbCtx) (bytes : List Nat) : RbCtx :=
  ⟨ctx.buf_offset + bytes.length, ctx.written ++ bytes⟩

/-- Embedding of `pid_ns_get_size` (identical in every provider): padding to
align `offset` to `lttng_alignof(unsigned int)`, plus `sizeof(unsigned int)`.
It takes neither the environment nor the cache. -/
def pid_ns_get_size (offset : Nat) : Nat :=
  let size := 0
  let size := size + lib_ring_buffer_align offset lttng_alignof_uint
  let size := size + sizeof_uint
  size

/-- Embedding of `user_ns_get_size`. -/
def user_ns_get_size (offset : Nat) : Nat :=
  let size := 0
  let size := size + lib_ring_buffer_align offset lttng_alignof_uint
  let size := size + sizeof_uint
  size

/-- Embedding of `mnt_ns_get_size`. -/
def mnt_ns_get_size (offset : Nat) : Nat :=
  let size := 0
  let size := size + lib_ring_buffer_align offset lttng_alignof_uint
  let size := size + sizeof_uint
  size

/-- Embedding of `cgroup_ns_get_size`. -/
def cgroup_ns_get_size (offset : Nat) : Nat :=
  let size := 0
  let size := size + lib_ring_buffer_align offset lttng_alignof_uint
  let size := size + sizeof_uint
  size

/-- Embedding of `net_ns_get_size`. -/
def net_ns_get_size (offset : Nat) : Nat :=
  let size := 0
  let size := size + lib_ring_buffer_align offset lttng_alignof_uint
  let size := size + sizeof_uint
  size

/-- Embedding of `ipc_ns_get_size`. -/
def ipc_ns_get_size (offset : Nat) : Nat :=
  let size := 0
  let size := size + lib_ring_buffer_align offset lttng_alignof_uint
  let size := size + sizeof_uint
  size

/-- Per-kind dispatch to the `get_size` callbacks. -/
def ns_get_size : NsKind → Nat → Nat
  | .pid => pid_ns_get_size
  | .user => user_ns_get_size
  | .mnt => mnt_ns_get_size
  | .cgroup => cgroup_ns_get_size
  | .net => net_ns_get_size
  | .ipc => ipc_ns_get_size

/-- Embedding of `pid_ns_record`: resolve the identity, align the sink to
`lttng_alignof(unsigned int)`, append the 4 value bytes. Returns the sink and
the cache cell after the call. -/
def pid_ns_record (env : OsEnv) (cached : Nat) (ctx : RbCtx) : RbCtx × Nat :=
  let r := get_pid_ns env cached
  let ctx := lib_ring_buffer_align_ctx ctx lttng_alignof_uint
  let ctx := event_write ctx (u32_le_bytes r.value)
  (ctx, r.cache)

/-- Embedding of `user_ns_record`. -/
def user_ns_record (env : OsEnv) (cached : Nat) (ctx : RbCtx) : RbCtx × Nat :=
  let r := get_user_ns env cached
  let ctx := lib_ring_buffer_align_ctx ctx lttng_alignof_uint
  let ctx := event_write ctx (u32_le_bytes r.value)
  (ctx, r.cache)

/-- Embedding of `mnt_ns_record`. -/
def mnt_ns_record (env : OsEnv) (cached : Nat) (ctx : RbCtx) : RbCtx × Nat :=
  let r := get_mnt_ns env cached
  let ctx := lib_ring_buffer_align_ctx ctx lttng_alignof_uint
  let ctx := event_write ctx (u32_le_bytes r.value)
  (ctx, r.cache)

/-- Embedding of `cgroup_ns_record`. -/
def cgroup_ns_record (env : OsEnv) (cached : Nat) (ctx : RbCtx) : RbCtx × Nat :=
  let r := get_cgroup_ns env cached
  let ctx := lib_ring_buffer_align_ctx ctx lttng_alignof_uint
  let ctx := event_write ctx (u32_le_bytes r.value)
  (ctx, r.cache)

/-- Embedding of `net_ns_record`. -/
def net_ns_record (env : OsEnv) (cached : Nat) (ctx : RbCtx) : RbCtx × Nat :=
  let r := get_net_ns env cached
  let ctx := lib_ring_buffer_align_ctx ctx lttng_alignof_uint
  let ctx := event_write ctx (u32_le_bytes r.value)
  (ctx, r.cache)

/-- Embedding of `ipc_ns_record`. -/
def ipc_ns_record (env : OsEnv) (cached : Nat) (ctx : RbCtx) : RbCtx × Nat :=
  let r := get_ipc_ns env cached
  let ctx := lib_ring_buffer_align_ctx ctx lttng_alignof_uint
  let ctx := event_write ctx (u32_le_bytes r.value)
  (ctx, r.cache)

/-- Per-kind dispatch to the `record` callbacks. -/
def ns_record : NsKind → OsEnv → Nat → RbCtx → RbCtx × Nat
  | .pid => pid_ns_record
  | .user => user_ns_record
  | .mnt => mnt_ns_record
  | .cgroup => cgroup_ns_record
  | .net => net_ns_record
  | .ipc => ipc_ns_record

/-- Embedding of `pid_ns_get_value`: resolve the identity and widen the
`unsigned int` into the signed 64-bit slot `value->u.s64`. Returns the value
slot and the cache cell after the call. -/
def pid_ns_get_value (env : OsEnv) (cached : Nat) : Int × Nat :=
  let r := get_pid_ns env cached
  ((r.value : Int), r.cache)

/-- Embedding of `user_ns_get_value`. -/
def user_ns_get_value (env : OsEnv) (cached : Nat) : Int × Nat :=
  let r := get_user_ns env cached
  ((r.value : Int), r.cache)

/-- Embedding of `mnt_ns_get_value`. -/
def mnt_ns_get_value (env : OsEnv) (cached : Nat) : Int × Nat :=
  let r := get_mnt_ns env cached
  ((r.value : Int), r.cache)

/-- Embedding of `cgroup_ns_get_value`. -/
def cgroup_ns_get_value (env : OsEnv) (cached : Nat) : Int × Nat :=
  let r := get_cgroup_ns env cached
  ((r.value : Int), r.cache)

/-- Embedding of `net_ns_get_value`. -/
def net_ns_get_value (env : OsEnv) (cached : Nat) : Int × Nat :=
  let r := get_net_ns env cached
  ((r.value : Int), r.cache)

/-- Embedding of `ipc_ns_get_value`. -/
def ipc_ns_get_value (env : OsEnv) (cached : Nat) : Int × Nat :=
  let r := get_ipc_ns env cached
  ((r.value : Int), r.cache)

/-- Per-kind dispatch to the `get_value` callbacks. -/
def ns_get_value : NsKind → OsEnv → Nat → Int × Nat
  | .pid => pid_ns_get_value
  | .user => user_ns_get_value
  | .mnt => mnt_ns_get_value
  | .cgroup => cgroup_ns_get_value
  | .net => net_ns_get_value
  | .ipc => ipc_ns_get_value

/-- The `event_field` metadata a provider writes into its registry slot. An
unset (just-allocated) slot has an empty name, modelling the NULL name of a
freshly allocated `struct lttng_ctx_field`. -/
structure LttngEventField where
  name : String
  atype_is_integer : Bool
  int_size_bits : Nat
  int_align_bits : Nat
  int_signed : Bool
  int_rev_bo : Bool
  int_base : Nat
  int_enc_none : Bool
deriving DecidableEq, Repr

/-- A registry slot: the event-field metadata plus which provider's three
callback pointers (`get_size`, `record`, `get_value`) are installed
(`none` while the slot is freshly allocated). -/
structure LttngCtxField where
  event_field : LttngEventField
  ops : Option NsKind
deriving DecidableEq, Repr

/-- A freshly allocated, not yet populated registry slot. -/
def blankCtxField : LttngCtxField :=
  ⟨⟨"", false, 0, 0, false, false, 0, false⟩, none⟩

/-- The context registry: its ordered list of field slots. -/
structure LttngCtx where
  fields : List LttngCtxField
deriving DecidableEq, Repr

/-- The C error number for out-of-memory; registration returns `-ENOMEM`. -/
def ENOMEM : Int := 12

/-- The C error number for an already-existing entry; registration returns
`-EEXIST`. -/
def EEXIST : Int := 17

/-- Modelled from the spec: `lttng_append_context` (registry code, not under
the provider sources) requests a new field slot, failing when the registry
cannot allocate one; `canAlloc` abstracts allocation success. On success the
new blank slot is appended at the end. -/
def lttng_append_context (canAlloc : Bool) (ctx : LttngCtx) : Option LttngCtx :=
  if canAlloc then some ⟨ctx.fields ++ [blankCtxField]⟩ else none

/-- Modelled from the spec: `lttng_find_context` (registry code) looks a field
up by name, skipping allocated but not yet populated slots (empty name). -/
def lttng_find_context (ctx : LttngCtx) (name : String) : Bool :=
  ctx.fields.any fun f =>
    (f.event_field.name != "") && (f.event_field.name == name)

/-- Modelled from the spec: `lttng_remove_context_field` (registry code) rolls
back the slot just allocated at the end of the field list. -/
def lttng_remove_context_field (ctx : LttngCtx) : LttngCtx :=
  ⟨ctx.fields.dropLast⟩

/-- Modelled from the spec: `lttng_context_update` (registry code) notifies
consumers that the field set changed; it does not alter the field list. -/
def lttng_context_update (ctx : LttngCtx) : LttngCtx := ctx

/-- Writing the populated descriptor through the slot pointer returned by
`lttng_append_context`, i.e. replacing the blank slot at the end. -/
def write_last_field (ctx : LttngCtx) (f : LttngCtxField) : LttngCtx :=
  ⟨ctx.fields.dropLast ++ [f]⟩

/-- Embedding of `lttng_add_pid_ns_to_ctx`: append a slot (`-ENOMEM` on
allocation failure), reject a duplicate name with rollback (`-EEXIST`),
otherwise populate the descriptor (32-bit unsigned native-order integer,
base 10, no encoding, pid callbacks) and notify. Returns the C return code
and the registry after the call. -/
def lttng_add_pid_ns_to_ctx (canAlloc : Bool) (ctx : LttngCtx) : Int × LttngCtx :=
  match lttng_append_context canAlloc ctx with
  | none => (-ENOMEM, ctx)
  | some ctx1 =>
    if lttng_find_context ctx1 "pid_ns" then
      (-EEXIST, lttng_remove_context_field ctx1)
    else
      (0, lttng_context_update (write_last_field ctx1
        ⟨⟨"pid_ns", true, sizeof_uint * 8, lttng_alignof_uint * 8,
          false, false, 10, true⟩, some .pid⟩))

/-- Embedding of `lttng_add_user_ns_to_ctx`. -/
def lttng_add_user_ns_to_ctx (canAlloc : Bool) (ctx : LttngCtx) : Int × LttngCtx :=
  match lttng_append_context canAlloc ctx with
  | none => (-ENOMEM, ctx)
  | some ctx1 =>
    if lttng_find_context ctx1 "user_ns" then
      (-EEXIST, lttng_remove_context_field ctx1)
    else
      (0, lttng_context_update (write_last_field ctx1
        ⟨⟨"user_ns", true, sizeof_uint * 8, lttng_alignof_uint * 8,
          false, false, 10, true⟩, some .user⟩))

/-- Embedding of `lttng_add_mnt_ns_to_ctx`. -/
def lttng_add_mnt_ns_to_ctx (canAlloc : Bool) (ctx : LttngCtx) : Int × LttngCtx :=
  match lttng_append_context canAlloc ctx with
  | none => (-ENOMEM, ctx)
  | some ctx1 =>
    if lttng_find_context ctx1 "mnt_ns" then
      (-EEXIST, lttng_remove_context_field ctx1)
    else
      (0, lttng_context_update (write_last_field ctx1
        ⟨⟨"mnt_ns", true, sizeof_uint * 8, lttng_alignof_uint * 8,
          false, false, 10, true⟩, some .mnt⟩))

/-- Embedding of `lttng_add_cgroup_ns_to_ctx`. -/
def lttng_add_cgroup_ns_to_ctx (canAlloc : Bool) (ctx : LttngCtx) : Int × LttngCtx :=
  match lttng_append_context canAlloc ctx with
  | none => (-ENOMEM, ctx)
  | some ctx1 =>
    if lttng_find_context ctx1 "cgroup_ns" then
      (-EEXIST, lttng_remove_context_field ctx1)
    else
      (0, lttng_context_update (write_last_field ctx1
        ⟨⟨"cgroup_ns", true, sizeof_uint * 8, lttng_alignof_uint * 8,
          false, false, 10, true⟩, some .cgroup⟩))

/-- Embedding of `lttng_add_net_ns_to_ctx`. -/
def lttng_add_net_ns_to_ctx (canAlloc : Bool) (ctx : LttngCtx) : Int × LttngCtx :=
  match lttng_append_context canAlloc ctx with
  | none => (-ENOMEM, ctx)
  | some ctx1 =>
    if lttng_find_context ctx1 "net_ns" then
      (-EEXIST, lttng_remove_context_field ctx1)
    else
      (0, lttng_context_update (write_last_field ctx1
        ⟨⟨"net_ns", true, sizeof_uint * 8, lttng_alignof_uint * 8,
          false, false, 10, true⟩, some .net⟩))

/-- Embedding of `lttng_add_ipc_ns_to_ctx`. -/
def lttng_add_ipc_ns_to_ctx (canAlloc : Bool) (ctx : LttngCtx) : Int × LttngCtx :=
  match lttng_append_context canAlloc ctx with
  | none => (-ENOMEM, ctx)
  | some ctx1 =>
    if lttng_find_context ctx1 "ipc_ns" then
      (-EEXIST, lttng_remove_context_field ctx1)
    else
      (0, lttng_context_update (write_last_field ctx1
        ⟨⟨"ipc_ns", true, sizeof_uint * 8, lttng_alignof_uint * 8,
          false, false, 10, true⟩, some .ipc⟩))

/-- Per-kind dispatch to the registration entry points. -/
def ns_add : NsKind → Bool → LttngCtx → Int × LttngCtx
  | .pid => lttng_add_pid_ns_to_ctx
  | .user => lttng_add_user_ns_to_ctx
  | .mnt => lttng_add_mnt_ns_to_ctx
  | .cgroup => lttng_add_cgroup_ns_to_ctx
  | .net => lttng_add_net_ns_to_ctx
  | .ipc => lttng_add_ipc_ns_to_ctx

/-! ### Helper lemmas about the resolvers -/

/-- On a cache hit (non-zero cache), every resolver returns the cached value,
leaves the cache unchanged, and performs no syscall. -/
lemma resolve_hit (k : NsKind) (env : OsEnv) (c : Nat) (h : c ≠ 0) :
    ns_resolve k env c = ⟨c, c, 0⟩ := by
  cases k <;>
    simp [ns_resolve, get_pid_ns, get_user_ns, get_mnt_ns, get_cgroup_ns,
      get_net_ns, get_ipc_ns, h]

/-- On a cache miss with a successful primary `stat`, every resolver stores
and returns the inode truncated mod 2^32, with one syscall. -/
lemma resolve_miss_primary (k : NsKind) (env : OsEnv) (ino : Nat)
    (h : env.stat_primary = some ino) :
    ns_resolve k env 0 = ⟨ino % U32_MOD, ino % U32_MOD, 1⟩ := by
  cases k <;>
    simp [ns_resolve, get_pid_ns, get_user_ns, get_mnt_ns, get_cgroup_ns,
      get_net_ns, get_ipc_ns, h]

/-- A call on a fresh (zero) cache performs at least one syscall. -/
lemma resolve_fresh_syscalls_pos (k : NsKind) (env : OsEnv) :
    1 ≤ (ns_resolve k env 0).syscalls := by
  cases k <;>
    rcases h1 : env.stat_primary with _ | ino <;>
    rcases h2 : env.snprintf_ok with _ | _ <;>
    rcases h3 : env.stat_fallback with _ | ino2 <;>
    simp [ns_resolve, get_pid_ns, get_user_ns, get_mnt_ns, get_cgroup_ns,
      get_net_ns, get_ipc_ns, h1, h2, h3]

/-- No call ever performs more than two syscalls. -/
lemma resolve_syscalls_le_two (k : NsKind) (env : OsEnv) (c : Nat) :
    (ns_resolve k env c).syscalls ≤ 2 := by
  cases k <;>
    rcases hc : decide (c = 0) with _ | _ <;>
    rcases h1 : env.stat_primary with _ | ino <;>
    rcases h2 : env.snprintf_ok with _ | _ <;>
    rcases h3 : env.stat_fallback with _ | ino2 <;>
    simp_all [ns_resolve, get_pid_ns, get_user_ns, get_mnt_ns, get_cgroup_ns,
      get_net_ns, get_ipc_ns]

/-- Every resolver returns exactly the cache cell it leaves behind. -/
lemma resolve_value_eq_cache (k : NsKind) (env : OsEnv) (c : Nat) :
    (ns_resolve k env c).value = (ns_resolve k env c).cache := by
  cases k <;>
    simp [ns_resolve, get_pid_ns, get_user_ns, get_mnt_ns, get_cgroup_ns,
      get_net_ns, get_ipc_ns]

/-- When the primary probe fails and the fallback path either cannot be built
or its probe fails, resolution on a fresh cache degrades to 0 and the cache
stays 0. -/
lemma resolve_fail (k : NsKind) (env : OsEnv)
    (h1 : env.stat_primary = none)
    (h2 : env.snprintf_ok = false ∨ env.stat_fallback = none) :
    ns_resolve k env 0 = ⟨0, 0, (ns_resolve k env 0).syscalls⟩ := by
  cases k <;> rcases h2 with h2 | h2 <;>
    rcases h3 : env.stat_fallback with _ | ino2 <;>
    rcases h4 : env.snprintf_ok with _ | _ <;>
    simp_all [ns_resolve, get_pid_ns, get_user_ns, get_mnt_ns, get_cgroup_ns,
      get_net_ns, get_ipc_ns]

/-- The value returned and the cache left behind are always below 2^32 when
the incoming cache is. -/
lemma resolve_u32 (k : NsKind) (env : OsEnv) (c : Nat) (h : c < U32_MOD) :
    (ns_resolve k env c).value < U32_MOD ∧ (ns_resolve k env c).cache < U32_MOD := by
  have hm : 0 < U32_MOD := by decide
  cases k <;>
    rcases hc : decide (c = 0) with _ | _ <;>
    rcases h1 : env.stat_primary with _ | ino <;>
    rcases h2 : env.snprintf_ok with _ | _ <;>
    rcases h3 : env.stat_fallback with _ | ino2 <;>
    simp_all [ns_resolve, get_pid_ns, get_user_ns, get_mnt_ns, get_cgroup_ns,
      get_net_ns, get_ipc_ns] <;>
    exact Nat.mod_lt _ hm

/-! ### Claim theorems -/

/-- C1: for every namespace kind and every write-sink offset, `record` appends
exactly the bytes `compute_size` accounted for at that offset: alignment
padding to the natural alignment of `unsigned int`, followed by exactly 4
bytes holding the resolved identity value in native byte order; the sink's
offset advances by exactly `get_size` of the pre-call offset. -/
theorem record_appends_exactly_compute_size (k : NsKind) (env : OsEnv)
    (c : Nat) (ctx : RbCtx) :
    (ns_record k env c ctx).1.written
      = ctx.written
        ++ (List.replicate (lib_ring_buffer_align ctx.buf_offset lttng_alignof_uint) 0
            ++ u32_le_bytes (ns_resolve k env c).value)
    ∧ (u32_le_bytes (ns_resolve k env c).value).length = 4
    ∧ (ns_record k env c ctx).1.written.length
        = ctx.written.length + ns_get_size k ctx.buf_offset
    ∧ (ns_record k env c ctx).1.buf_offset
        = ctx.buf_offset + ns_get_size k ctx.buf_offset := by
  cases k <;>
    simp [ns_record, ns_resolve, ns_get_size, pid_ns_record, user_ns_record,
      mnt_ns_record, cgroup_ns_record, net_ns_record, ipc_ns_record,
      pid_ns_get_size, user_ns_get_size, mnt_ns_get_size, cgroup_ns_get_size,
      net_ns_get_size, ipc_ns_get_size, lib_ring_buffer_align_ctx, event_write,
      u32_le_bytes, sizeof_uint, List.append_assoc] <;> omega

/-- C5: for every namespace kind, reset sets the cache to 0 (unresolved), and
a resolution following reset is a renewed cache miss: it performs at least
one syscall for every environment, instead of returning a stale value. -/
theorem reset_clears_cache_forces_renewed_miss (k : NsKind) (c : Nat) (env : OsEnv) :
    ns_reset k c = 0
    ∧ 1 ≤ (ns_resolve k env (ns_reset k c)).syscalls
    ∧ ns_resolve k env (ns_reset k c) = ns_resolve k env 0 := by
  have h0 : ns_reset k c = 0 := by
    cases k <;> rfl
  exact ⟨h0, by rw [h0]; exact resolve_fresh_syscalls_pos k env, by rw [h0]⟩

/-- C6: for every namespace kind and every offset, `compute_size` returns the
alignment padding plus the fixed 4-byte width, the padding being exactly what
aligns the offset to the natural alignment (4) of `unsigned int`; it is a
pure function of the offset alone (it takes neither an environment nor a
cache, so repeated calls at the same offset return the same result). -/
theorem compute_size_padding_plus_width (k : NsKind) (offset : Nat) :
    ns_get_size k offset = (4 - offset % 4) % 4 + 4
    ∧ (offset + (4 - offset % 4) % 4) % 4 = 0 := by
  constructor
  · cases k <;>
      simp [ns_get_size, pid_ns_get_size, user_ns_get_size, mnt_ns_get_size,
        cgroup_ns_get_size, net_ns_get_size, ipc_ns_get_size,
        lib_ring_buffer_align, lttng_alignof_uint, sizeof_uint]
  · omega

/-- C4: for every namespace kind and every outcome of the OS lookups,
resolution returns normally with an unsigned 32-bit value (the resolvers,
record and read are total functions in this embedding); when the primary
probe fails and the fallback either cannot be built or fails, it returns 0
and leaves the cache at 0. -/
theorem resolve_always_succeeds_degrades_to_zero (k : NsKind) (env : OsEnv)
    (c : Nat) (hc : c < U32_MOD) :
    (ns_resolve k env c).value < U32_MOD
    ∧ (ns_resolve k env c).cache < U32_MOD
    ∧ (env.stat_primary = none →
        (env.snprintf_ok = false ∨ env.stat_fallback = none) →
          (ns_resolve k env 0).value = 0 ∧ (ns_resolve k env 0).cache = 0) := by
  obtain ⟨hv, hcache⟩ := resolve_u32 k env c hc
  refine ⟨hv, hcache, fun h1 h2 => ?_⟩
  rw [resolve_fail k env h1 h2]
  exact ⟨rfl, rfl⟩

/-- Witness for C4: kind `ipc`, cache 7, both probes failing. -/
theorem resolve_always_succeeds_degrades_to_zero_witness :
    (7 : Nat) < U32_MOD
    ∧ ((ns_resolve NsKind.ipc ⟨none, true, none⟩ 7).value < U32_MOD
      ∧ (ns_resolve NsKind.ipc ⟨none, true, none⟩ 7).cache < U32_MOD
      ∧ ((⟨none, true, none⟩ : OsEnv).stat_primary = none →
          ((⟨none, true, none⟩ : OsEnv).snprintf_ok = false
            ∨ (⟨none, true, none⟩ : OsEnv).stat_fallback = none) →
            (ns_resolve NsKind.ipc ⟨none, true, none⟩ 0).value = 0
            ∧ (ns_resolve NsKind.ipc ⟨none, true, none⟩ 0).cache = 0)) :=
  ⟨by decide,
   resolve_always_succeeds_degrades_to_zero NsKind.ipc ⟨none, true, none⟩ 7 (by decide)⟩

/-- C9: once the cache holds a non-zero value, every operation except reset
leaves it unchanged: resolve returns it with no syscall, record and read
leave it in place (read returns it widened to s64), and any exposed fixup is
the identity on it; only reset writes 0. -/
theorem cache_written_only_by_miss_or_reset (k : NsKind) (env : OsEnv)
    (c : Nat) (ctx : RbCtx) (h : c ≠ 0) :
    ns_resolve k env c = ⟨c, c, 0⟩
    ∧ (ns_record k env c ctx).2 = c
    ∧ ns_get_value k env c = ((c : Int), c)
    ∧ (∀ f, ns_fixup k = some f → f c = c)
    ∧ ns_reset k c = 0 := by
  have hr := resolve_hit k env c h
  refine ⟨hr, ?_, ?_, ?_, ?_⟩
  · cases k <;>
      simp_all [ns_record, ns_resolve, pid_ns_record, user_ns_record,
        mnt_ns_record, cgroup_ns_record, net_ns_record, ipc_ns_record]
  · cases k <;>
      simp_all [ns_get_value, ns_resolve, pid_ns_get_value, user_ns_get_value,
        mnt_ns_get_value, cgroup_ns_get_value, net_ns_get_value,
        ipc_ns_get_value]
  · intro f hf
    cases k <;> simp [ns_fixup] at hf <;> subst hf <;> rfl
  · cases k <;> rfl

/-- Witness for C9 at kind `cgroup`, cache 42. -/
theorem cache_written_only_by_miss_or_reset_witness :
    (42 : Nat) ≠ 0
    ∧ (ns_resolve NsKind.cgroup ⟨some 9, true, none⟩ 42 = ⟨42, 42, 0⟩
      ∧ (ns_record NsKind.cgroup ⟨some 9, true, none⟩ 42 ⟨0, []⟩).2 = 42
      ∧ ns_get_value NsKind.cgroup ⟨some 9, true, none⟩ 42 = ((42 : Int), 42)
      ∧ (∀ f, ns_fixup NsKind.cgroup = some f → f 42 = 42)
      ∧ ns_reset NsKind.cgroup 42 = 0) :=
  ⟨by decide,
   cache_written_only_by_miss_or_reset NsKind.cgroup ⟨some 9, true, none⟩ 42 ⟨0, []⟩
     (by decide)⟩

/-- C10: when the primary probe succeeds, the inode is stored and returned
truncated mod 2^32; an inode that is a non-zero multiple of 2^32 is therefore
stored as 0, the cache stays unresolved, and a later call still performs a
syscall. -/
theorem inode_truncated_mod_u32 (k : NsKind) (env env2 : OsEnv) (ino : Nat)
    (h : env.stat_primary = some ino) :
    ns_resolve k env 0 = ⟨ino % U32_MOD, ino % U32_MOD, 1⟩
    ∧ (ino % U32_MOD = 0 →
        (ns_resolve k env 0).cache = 0
        ∧ 1 ≤ (ns_resolve k env2 (ns_resolve k env 0).cache).syscalls) := by
  have hm := resolve_miss_primary k env ino h
  refine ⟨hm, fun h0 => ?_⟩
  rw [hm]
  exact ⟨h0, by rw [h0]; exact resolve_fresh_syscalls_pos k env2⟩

/-- Witness for C10: kind `user`, inode 2^32 (a non-zero multiple of 2^32)
is stored as 0 and the next call still probes. -/
theorem inode_truncated_mod_u32_witness :
    (⟨some (2 ^ 32), true, none⟩ : OsEnv).stat_primary = some (2 ^ 32)
    ∧ (ns_resolve NsKind.user ⟨some (2 ^ 32), true, none⟩ 0
        = ⟨2 ^ 32 % U32_MOD, 2 ^ 32 % U32_MOD, 1⟩
      ∧ (2 ^ 32 % U32_MOD = 0 →
          (ns_resolve NsKind.user ⟨some (2 ^ 32), true, none⟩ 0).cache = 0
          ∧ 1 ≤ (ns_resolve NsKind.user ⟨none, false, none⟩
              (ns_resolve NsKind.user ⟨some (2 ^ 32), true, none⟩ 0).cache).syscalls)) :=
  ⟨rfl,
   inode_truncated_mod_u32 NsKind.user ⟨some (2 ^ 32), true, none⟩
     ⟨none, false, none⟩ (2 ^ 32) rfl⟩

/-- The `get_value` callbacks return exactly the resolver's value widened to
s64, and leave the resolver's cache. -/
lemma get_value_eq_resolve (k : NsKind) (env : OsEnv) (c : Nat) :
    ns_get_value k env c
      = (((ns_resolve k env c).value : Int), (ns_resolve k env c).cache) := by
  cases k <;> rfl

/-- The `record` callbacks leave exactly the resolver's cache. -/
lemma record_cache_eq_resolve (k : NsKind) (env : OsEnv) (c : Nat) (ctx : RbCtx) :
    (ns_record k env c ctx).2 = (ns_resolve k env c).cache := by
  cases k <;> rfl

/-- C3 counterexample: for kind `net` with both probes failing, the first call
on a fresh cache performs two syscalls and leaves the cache unresolved, and
the second call with no intervening reset performs two syscalls again — not
zero as the claim states. -/
theorem second_call_after_failed_resolution_probes_again :
    (ns_resolve NsKind.net ⟨none, true, none⟩ 0).syscalls = 2
    ∧ (ns_resolve NsKind.net ⟨none, true, none⟩
        ((ns_resolve NsKind.net ⟨none, true, none⟩ 0).cache)).syscalls = 2
    ∧ ¬ (ns_resolve NsKind.net ⟨none, true, none⟩
        ((ns_resolve NsKind.net ⟨none, true, none⟩ 0).cache)).syscalls = 0 := by
  decide

/-- C3 (amended): for every kind, the first call on a fresh cache performs one
resolution attempt of one or two syscalls; provided that first resolution
yields a non-zero identity, a second read or record with no intervening reset
performs zero syscalls and returns the same value, whatever environment the
second call sees. (Unamended, the claim fails when resolution fails: the
cache stays 0 and the next call probes again.) -/
theorem first_resolution_memoized_on_success (k : NsKind) (env env2 : OsEnv)
    (ctx : RbCtx) (h : (ns_resolve k env 0).value ≠ 0) :
    1 ≤ (ns_resolve k env 0).syscalls
    ∧ (ns_resolve k env 0).syscalls ≤ 2
    ∧ ns_resolve k env2 (ns_resolve k env 0).cache
        = ⟨(ns_resolve k env 0).value, (ns_resolve k env 0).cache, 0⟩
    ∧ ns_get_value k env2 (ns_resolve k env 0).cache
        = (((ns_resolve k env 0).value : Int), (ns_resolve k env 0).cache)
    ∧ (ns_record k env2 (ns_resolve k env 0).cache ctx).2
        = (ns_resolve k env 0).cache := by
  have hvc := resolve_value_eq_cache k env 0
  have hcne : (ns_resolve k env 0).cache ≠ 0 := hvc ▸ h
  have hhit := resolve_hit k env2 _ hcne
  refine ⟨resolve_fresh_syscalls_pos k env, resolve_syscalls_le_two k env 0,
    ?_, ?_, ?_⟩
  · rw [hhit, hvc]
  · rw [get_value_eq_resolve, hhit, hvc]
  · rw [record_cache_eq_resolve, hhit]

/-- Witness for C3 (amended): kind `net`, first probe resolves inode 5. -/
theorem first_resolution_memoized_on_success_witness :
    (ns_resolve NsKind.net ⟨some 5, true, none⟩ 0).value ≠ 0
    ∧ (1 ≤ (ns_resolve NsKind.net ⟨some 5, true, none⟩ 0).syscalls
      ∧ (ns_resolve NsKind.net ⟨some 5, true, none⟩ 0).syscalls ≤ 2
      ∧ ns_resolve NsKind.net ⟨none, false, none⟩
          ((ns_resolve NsKind.net ⟨some 5, true, none⟩ 0).cache)
          = ⟨(ns_resolve NsKind.net ⟨some 5, true, none⟩ 0).value,
             (ns_resolve NsKind.net ⟨some 5, true, none⟩ 0).cache, 0⟩
      ∧ ns_get_value NsKind.net ⟨none, false, none⟩
          ((ns_resolve NsKind.net ⟨some 5, true, none⟩ 0).cache)
          = (((ns_resolve NsKind.net ⟨some 5, true, none⟩ 0).value : Int),
             (ns_resolve NsKind.net ⟨some 5, true, none⟩ 0).cache)
      ∧ (ns_record NsKind.net ⟨none, false, none⟩
          ((ns_resolve NsKind.net ⟨some 5, true, none⟩ 0).cache) ⟨0, []⟩).2
          = (ns_resolve NsKind.net ⟨some 5, true, none⟩ 0).cache) :=
  ⟨by decide,
   first_resolution_memoized_on_success NsKind.net ⟨some 5, true, none⟩
     ⟨none, false, none⟩ ⟨0, []⟩ (by decide)⟩

/-- C7: the pid resolver performs at most one syscall in every environment
(single modern path, no fallback) and takes no per-execution-unit parameter;
its cache is one process-wide cell, so once it holds a resolved (non-zero)
value, any execution unit reading that shared cell — whatever its own
environment — gets the same value with zero further syscalls. -/
theorem pid_single_path_process_wide (envA envB : OsEnv) (c : Nat) (h : c ≠ 0) :
    (∀ env c0, (get_pid_ns env c0).syscalls ≤ 1)
    ∧ get_pid_ns envA c = ⟨c, c, 0⟩
    ∧ get_pid_ns envB c = ⟨c, c, 0⟩
    ∧ (pid_ns_get_value envA c).1 = (pid_ns_get_value envB c).1 := by
  have hA : get_pid_ns envA c = ⟨c, c, 0⟩ := by
    simpa [ns_resolve] using resolve_hit NsKind.pid envA c h
  have hB : get_pid_ns envB c = ⟨c, c, 0⟩ := by
    simpa [ns_resolve] using resolve_hit NsKind.pid envB c h
  refine ⟨fun env c0 => ?_, hA, hB, ?_⟩
  · rcases hc : decide (c0 = 0) with _ | _ <;>
      rcases h1 : env.stat_primary with _ | ino <;>
      simp_all [get_pid_ns]
  · simp [pid_ns_get_value, hA, hB]

/-- Witness for C7 at cache value 42 and two distinct environments. -/
theorem pid_single_path_process_wide_witness :
    (42 : Nat) ≠ 0
    ∧ ((∀ env c0, (get_pid_ns env c0).syscalls ≤ 1)
      ∧ get_pid_ns ⟨some 9, true, none⟩ 42 = ⟨42, 42, 0⟩
      ∧ get_pid_ns ⟨none, false, none⟩ 42 = ⟨42, 42, 0⟩
      ∧ (pid_ns_get_value ⟨some 9, true, none⟩ 42).1
          = (pid_ns_get_value ⟨none, false, none⟩ 42).1) :=
  ⟨by decide,
   pid_single_path_process_wide ⟨some 9, true, none⟩ ⟨none, false, none⟩ 42
     (by decide)⟩

/-- C8 counterexample: the pid provider exposes no fixup operation —
lttng-context-pid-ns.c defines no `lttng_fixup_pid_ns_tls`, its cache being a
plain process-global rather than TLS — so "every one of the six namespace
kinds" fails at `pid`. -/
theorem pid_fixup_absent : ns_fixup NsKind.pid = none := rfl

/-- C8 (amended): every namespace kind other than pid exposes a fixup
operation that touches the kind's TLS cache storage, never fails (it is a
total function), and has no other observable effect: it leaves the cache
value unchanged. The pid provider exposes none. -/
theorem fixup_touch_has_no_effect (k : NsKind) (h : k ≠ NsKind.pid) :
    ∃ f, ns_fixup k = some f ∧ ∀ c, f c = c := by
  cases k with
  | pid => exact absurd rfl h
  | user => exact ⟨_, rfl, fun c => rfl⟩
  | mnt => exact ⟨_, rfl, fun c => rfl⟩
  | cgroup => exact ⟨_, rfl, fun c => rfl⟩
  | net => exact ⟨_, rfl, fun c => rfl⟩
  | ipc => exact ⟨_, rfl, fun c => rfl⟩

/-- Witness for C8 (amended) at kind `net`. -/
theorem fixup_touch_has_no_effect_witness :
    NsKind.net ≠ NsKind.pid
    ∧ ∃ f, ns_fixup NsKind.net = some f ∧ ∀ c, f c = c :=
  ⟨by decide, fixup_touch_has_no_effect NsKind.net (by decide)⟩

/-- A field list none of whose populated names match is not found. -/
lemma find_context_no_match (fs : List LttngCtxField) (name : String)
    (h : ∀ f ∈ fs, f.event_field.name ≠ name) :
    lttng_find_context ⟨fs⟩ name = false := by
  simp only [lttng_find_context, List.any_eq_false]
  intro f hf
  simp [h f hf]

/-- A field list containing a populated field of the given name is found. -/
lemma find_context_match (fs : List LttngCtxField) (name : String)
    (f : LttngCtxField) (hmem : f ∈ fs) (hne : f.event_field.name ≠ "")
    (heq : f.event_field.name = name) :
    lttng_find_context ⟨fs⟩ name = true := by
  simp only [lttng_find_context, List.any_eq_true]
  exact ⟨f, hmem, by simp [heq, heq ▸ hne]⟩

/-- Behavior of a provider's registration entry point, shared by all six: on
a registry with no field of the provider's name, registration succeeds and
appends exactly the populated descriptor; registering again fails with
`-EEXIST`, the fresh slot is rolled back, and the registry is unchanged. -/
lemma add_ns_spec (name : String) (desc : LttngCtxField)
    (hname : name ≠ "") (hdn : desc.event_field.name = name)
    (add : Bool → LttngCtx → Int × LttngCtx)
    (hadd : ∀ b c2, add b c2 =
      match lttng_append_context b c2 with
      | none => (-ENOMEM, c2)
      | some c3 =>
        if lttng_find_context c3 name then
          (-EEXIST, lttng_remove_context_field c3)
        else
          (0, lttng_context_update (write_last_field c3 desc)))
    (ctx : LttngCtx) (h : ∀ f ∈ ctx.fields, f.event_field.name ≠ name) :
    add true ctx = (0, ⟨ctx.fields ++ [desc]⟩)
    ∧ ((ctx.fields ++ [desc]).countP
        (fun f => f.event_field.name == name)) = 1
    ∧ add true ⟨ctx.fields ++ [desc]⟩ = (-EEXIST, ⟨ctx.fields ++ [desc]⟩) := by
  have hfind1 : lttng_find_context ⟨ctx.fields ++ [blankCtxField]⟩ name = false := by
    apply find_context_no_match
    intro f hf
    rcases List.mem_append.mp hf with hf | hf
    · exact h f hf
    · rw [List.mem_singleton.mp hf]
      exact fun e => hname e.symm
  have hfind2 :
      lttng_find_context ⟨ctx.fields ++ [desc, blankCtxField]⟩ name = true := by
    refine find_context_match _ name desc ?_ (hdn ▸ hname) hdn
    simp
  have hdrop : (ctx.fields ++ [desc, blankCtxField]).dropLast = ctx.fields ++ [desc] := by
    rw [show ctx.fields ++ [desc, blankCtxField]
        = (ctx.fields ++ [desc]) ++ [blankCtxField] by simp]
    exact List.dropLast_concat
  refine ⟨?_, ?_, ?_⟩
  · rw [hadd]
    simp [lttng_append_context, hfind1, lttng_context_update, write_last_field,
      List.dropLast_concat]
  · rw [List.countP_append]
    have h0 : ctx.fields.countP (fun f => f.event_field.name == name) = 0 :=
      List.countP_eq_zero.mpr (fun f hf => by simp [h f hf])
    simp [h0, hdn]
  · rw [hadd]
    simp [lttng_append_context, hfind2, lttng_remove_context_field, hdrop]

/-- C2: for every namespace kind, on a registry with no field of the kind's
name, the first registration returns success and leaves exactly one field
named for the kind; the second registration returns `-EEXIST` with the
just-allocated slot rolled back, leaving the registry identical to the state
after the single successful registration. -/
theorem register_twice_second_already_exists (k : NsKind) (ctx : LttngCtx)
    (h : ∀ f ∈ ctx.fields, f.event_field.name ≠ k.fieldName) :
    (ns_add k true ctx).1 = 0
    ∧ ((ns_add k true ctx).2.fields.countP
        (fun f => f.event_field.name == k.fieldName)) = 1
    ∧ ns_add k true (ns_add k true ctx).2 = (-EEXIST, (ns_add k true ctx).2) := by
  cases k with
  | pid =>
    obtain ⟨h1, h2, h3⟩ := add_ns_spec "pid_ns"
      ⟨⟨"pid_ns", true, sizeof_uint * 8, lttng_alignof_uint * 8,
        false, false, 10, true⟩, some .pid⟩
      (by decide) rfl lttng_add_pid_ns_to_ctx (fun b c2 => rfl) ctx h
    exact ⟨by simp [ns_add, h1], by simp [ns_add, NsKind.fieldName, h1, h2],
      by simp [ns_add, h1, h3]⟩
  | user =>
    obtain ⟨h1, h2, h3⟩ := add_ns_spec "user_ns"
      ⟨⟨"user_ns", true, sizeof_uint * 8, lttng_alignof_uint * 8,
        false, false, 10, true⟩, some .user⟩
      (by decide) rfl lttng_add_user_ns_to_ctx (fun b c2 => rfl) ctx h
    exact ⟨by simp [ns_add, h1], by simp [ns_add, NsKind.fieldName, h1, h2],
      by simp [ns_add, h1, h3]⟩
  | mnt =>
    obtain ⟨h1, h2, h3⟩ := add_ns_spec "mnt_ns"
      ⟨⟨"mnt_ns", true, sizeof_uint * 8, lttng_alignof_uint * 8,
        false, false, 10, true⟩, some .mnt⟩
      (by decide) rfl lttng_add_mnt_ns_to_ctx (fun b c2 => rfl) ctx h
    exact ⟨by simp [ns_add, h1], by simp [ns_add, NsKind.fieldName, h1, h2],
      by simp [ns_add, h1, h3]⟩
  | cgroup =>
    obtain ⟨h1, h2, h3⟩ := add_ns_spec "cgroup_ns"
      ⟨⟨"cgroup_ns", true, sizeof_uint * 8, lttng_alignof_uint * 8,
        false, false, 10, true⟩, some .cgroup⟩
      (by decide) rfl lttng_add_cgroup_ns_to_ctx (fun b c2 => rfl) ctx h
    exact ⟨by simp [ns_add, h1], by simp [ns_add, NsKind.fieldName, h1, h2],
      by simp [ns_add, h1, h3]⟩
  | net =>
    obtain ⟨h1, h2, h3⟩ := add_ns_spec "net_ns"
      ⟨⟨"net_ns", true, sizeof_uint * 8, lttng_alignof_uint * 8,
        false, false, 10, true⟩, some .net⟩
      (by decide) rfl lttng_add_net_ns_to_ctx (fun b c2 => rfl) ctx h
    exact ⟨by simp [ns_add, h1], by simp [ns_add, NsKind.fieldName, h1, h2],
      by simp [ns_add, h1, h3]⟩
  | ipc =>
    obtain ⟨h1, h2, h3⟩ := add_ns_spec "ipc_ns"
      ⟨⟨"ipc_ns", true, sizeof_uint * 8, lttng_alignof_uint * 8,
        false, false, 10, true⟩, some .ipc⟩
      (by decide) rfl lttng_add_ipc_ns_to_ctx (fun b c2 => rfl) ctx h
    exact ⟨by simp [ns_add, h1], by simp [ns_add, NsKind.fieldName, h1, h2],
      by simp [ns_add, h1, h3]⟩

/-- Witness for C2: kind `net` registered twice on the empty registry. -/
theorem register_twice_second_already_exists_witness :
    (∀ f ∈ (⟨[]⟩ : LttngCtx).fields, f.event_field.name ≠ NsKind.net.fieldName)
    ∧ ((ns_add NsKind.net true ⟨[]⟩).1 = 0
      ∧ ((ns_add NsKind.net true ⟨[]⟩).2.fields.countP
          (fun f => f.event_field.name == NsKind.net.fieldName)) = 1
      ∧ ns_add NsKind.net true (ns_add NsKind.net true ⟨[]⟩).2
          = (-EEXIST, (ns_add NsKind.net true ⟨[]⟩).2)) :=
  ⟨by simp, register_twice_second_already_exists NsKind.net ⟨[]⟩ (by simp)⟩
